import Mathlib

/-!
Verification development for the AMD-AIE device-binary packaging pipeline
(`XCLBinGen.cpp`).  The definitions below are shallow embeddings of the
functions in `compiler/plugins/target/AMD-AIE/iree-amd-aie/Target/XCLBinGen.cpp`:
pure computations become Lean functions, filesystem / process effects are
abstracted as explicit boolean oracles threaded through the state, and
fallible C++ code (`FailureOr`, unchecked dereferences) returns `Option`.
-/

namespace XCLBinGen

/-! ## Hex formatting of npu instruction words (`emitNpuInstructions`)

The C++ writes each 32-bit word with `llvm::format("%08X\n", w)` — minimal
uppercase hex digits left-padded with zeros to width 8; for `uint32_t`
values this is exactly the 8 nibbles from most to least significant. -/

/-- The sixteen uppercase hexadecimal digit characters, indexed by value. -/
def upperHexDigits : List Char :=
  ['0', '1', '2', '3', '4', '5', '6', '7', '8', '9', 'A', 'B', 'C', 'D', 'E', 'F']

/-- Digit character for a nibble value (uppercase, as `%X` prints). -/
def hexDigitChar (n : Nat) : Char := upperHexDigits.getD n '0'

/-- `%08X` applied to a `uint32_t` value: the eight nibbles of `w`, most
significant first, each rendered as an uppercase hexadecimal digit. -/
def hex8 (w : Nat) : String :=
  String.mk ((List.range 8).map (fun k => hexDigitChar (w / 16 ^ (7 - k) % 16)))

/-- Newline-separated concatenation with no trailing newline: the shape of
the text that the dump loop produces for a non-empty word sequence. -/
def joinWithNewlines : List String → String
  | [] => ""
  | [s] => s
  | s :: rest => s ++ "\n" ++ joinWithNewlines rest

/-- One iteration space of the dump loop in `emitNpuInstructions`.  In the
source the loop bound is `maybeArrayRef->size() - 1` where `size()` is a
`size_t`: the value `n - 1` computed modulo `2^64`, so for an empty array
the subtraction wraps around to `2^64 - 1`.  (`npuLoopBound_spec` below
checks this case split against the plain modular formula.) -/
def npuLoopBound (n : Nat) : Nat :=
  match n with
  | 0 => 2 ^ 64 - 1
  | m + 1 => m % 2 ^ 64

/-- The loop body writes `hex8 ws[i] ++ "\n"` for each `i` below the bound;
each array access is modelled with `Option`-returning indexing so an
out-of-bounds access surfaces as `none`. -/
def npuLoopPieces (ws : List Nat) (bound : Nat) : Option (List String) :=
  (List.range bound).mapM (fun i => (ws[i]?).map (fun w => hex8 w ++ "\n"))

/-- Concatenation of the text the loop iterations write, in order. -/
def concatStrings : List String → String
  | [] => ""
  | s :: rest => s ++ concatStrings rest

/-- `emitNpuInstructions`, text part: the loop over all words but the last
(each followed by a newline), then `back()` — modelled as `getLast?` —
with no trailing newline.  `none` models an out-of-bounds array access. -/
def emitNpuInstructionsText (ws : List Nat) : Option String :=
  match npuLoopPieces ws (npuLoopBound ws.length) with
  | none => none
  | some pieces =>
    match ws.getLast? with
    | none => none
    | some last => some (concatStrings pieces ++ hex8 last)

/-! ## Toolchain locator (`getTargetDir`, `findVitis`, `makeChessEnv`) -/

/-- `getTargetDir`: maps the hardware-family identifier to the vendor
toolchain's model-data subdirectory; fails for every other identifier. -/
def getTargetDir (npuVersion : String) : Option String :=
  if npuVersion = "npu1" then some "target_aie_ml"
  else if npuVersion = "npu4" then some "target_aie2p"
  else none

/-- The license gate inside `findVitis` (lines 259–271).  The source reads
`XILINXD_LICENSE_FILE`; only when that is unset does it fall back to
`LM_LICENSE_FILE`, and only the fallback value is checked for existence
on disk.  Returns `true` when resolution may continue. -/
def licenseCheck (xilinxdLicense lmLicense : Option String)
    (pathExists : String → Bool) : Bool :=
  match xilinxdLicense with
  | some _ => true
  | none =>
    match lmLicense with
    | none => false
    | some f => pathExists f

/-- The process environment and filesystem facts consulted by `findVitis`,
abstracted: `vitisDirOpt` is the outcome of the directory probe (explicit
flag / `VITIS` / derived from `v++`, lines 239–257), the two license
variables, and a filesystem-existence oracle. -/
structure VitisEnv where
  vitisDirOpt : Option String
  xilinxdLicense : Option String
  lmLicense : Option String
  pathExists : String → Bool

/-- `findVitis`: directory probe, license gate, `aietools` existence,
then the `chess-clang` / `chess-llvm-link` pair under the target
directory.  The source dereferences `*getTargetDir(npuVersion)` without
checking; the dereference is modelled as an `Option` bind. -/
def findVitis (env : VitisEnv) (npuVersion : String) : Option String :=
  match env.vitisDirOpt with
  | none => none
  | some d =>
    if licenseCheck env.xilinxdLicense env.lmLicense env.pathExists then
      let aieToolsPath := d ++ "/aietools"
      if env.pathExists aieToolsPath then
        match getTargetDir npuVersion with
        | none => none
        | some td =>
          let chessccPath := aieToolsPath ++ "/tps/lnx64/" ++ td ++ "/bin/LNa64bin"
          if env.pathExists (chessccPath ++ "/chess-clang") then
            if env.pathExists (chessccPath ++ "/chess-llvm-link") then some d
            else none
          else none
      else none
    else none

/-- The inputs `makeChessEnv` reads from the process environment. -/
structure ChessEnvInput where
  pathVar : String
  ldLibraryPathVar : Option String
  xilinxdLicense : Option String
  lmLicense : Option String

/-- `makeChessEnv`: builds the four environment assignments for a chess
invocation.  The source dereferences `*getTargetDir(npuVersion)` without
checking, and constructs `std::string` from a possibly null license
pointer; both are modelled as `Option` binds. -/
def makeChessEnv (vitisDir : String) (npuVersion : String)
    (inp : ChessEnvInput) : Option (List String) := do
  let aieToolsPath := vitisDir ++ "/aietools"
  let td ← getTargetDir npuVersion
  let chessccPath := aieToolsPath ++ "/tps/lnx64/" ++ td ++ "/bin/LNa64bin"
  let lnx64o := aieToolsPath ++ "/lib/lnx64.o"
  let dotLib := aieToolsPath ++ "/lnx64/tools/dot/lib"
  let ldLibraryPath := match inp.ldLibraryPathVar with
    | some v => v
    | none => ""
  let licenseFile ← match inp.xilinxdLicense with
    | some l => some l
    | none => inp.lmLicense
  pure ["PATH=" ++ chessccPath ++ ":" ++ inp.pathVar,
        "LD_LIBRARY_PATH=" ++ lnx64o ++ ":" ++ dotLib ++ ":" ++ ldLibraryPath,
        "RDI_DATADIR=" ++ aieToolsPath ++ "/data",
        "XILINXD_LICENSE_FILE=" ++ licenseFile]

/-! ## Opt-flag composition (`makePeanoOptArgs`, lines 75–156) -/

/-- The fixed default argument list for peano's `opt`, including the two
I/O file arguments, exactly as built at the top of `makePeanoOptArgs`. -/
def defaultPeanoArgs (filenameIrIn filenameIrOut : String) : List String :=
  ["-vectorize-loops=false",
   "-vectorize-slp=false",
   "--two-entry-phi-node-folding-threshold=10",
   "-mandatory-inlining-before-opt=false",
   "-basic-aa-full-phi-analysis=true",
   "-basic-aa-max-lookup-search-depth=10",
   "-O3",
   "--inline-threshold=10",
   "--disable-builtin=memset",
   "-S", filenameIrIn,
   "-o", filenameIrOut]

/-- `isOptLevelFlag`: three characters, `-O` prefix (`flag.size() == 3 &&
flag[0] == '-' && flag[1] == 'O'`). -/
def isOptLevelFlag (flag : String) : Bool :=
  match flag.data with
  | ['-', 'O', _] => true
  | _ => false

/-- `isContention`: two flags cannot coexist exactly when both are
optimization-level flags. -/
def isContention (a b : String) : Bool :=
  isOptLevelFlag a && isOptLevelFlag b

/-- `std::find_if` over the current argument list: index of the first
argument contending with `flag`, if any. -/
def findFirstContention : List String → String → Option Nat
  | [], _ => none
  | a :: rest, flag =>
    if isContention a flag then some 0
    else (findFirstContention rest flag).map (fun i => i + 1)

/-- One step of the append loop: find the first existing argument that
contends with `flag`; replace it in place if found, else append `flag`. -/
def addFlag (args : List String) (flag : String) : List String :=
  match findFirstContention args flag with
  | none => args ++ [flag]
  | some i => args.set i flag

/-- Tokenization performed by `istream_iterator<std::string>`: maximal
runs of non-whitespace characters, accumulated left to right. -/
def splitFlagsAux : List Char → List Char → List String
  | [], acc => if acc = [] then [] else [String.mk acc.reverse]
  | c :: rest, acc =>
    if c.isWhitespace then
      if acc = [] then splitFlagsAux rest []
      else String.mk acc.reverse :: splitFlagsAux rest []
    else splitFlagsAux rest (c :: acc)

/-- Whitespace tokenization of a character sequence. -/
def splitFlags (s : List Char) : List String := splitFlagsAux s []

/-- `makePeanoOptArgs`: default args; empty additional-flag string returns
them unchanged; otherwise the string must start and end with `"` (checked
as `size() < 2 || front() != quote || back() != quote`); the wrapped
content (`substr(1, size - 2)`) is tokenized on whitespace and folded in
with `addFlag`.  `none` models `failure`. -/
def makePeanoOptArgs (filenameIrIn filenameIrOut additionalPeanoOptFlags : String) :
    Option (List String) :=
  let args := defaultPeanoArgs filenameIrIn filenameIrOut
  if additionalPeanoOptFlags = "" then some args
  else if additionalPeanoOptFlags.data.length < 2 ∨
      additionalPeanoOptFlags.data.headD ' ' ≠ '"' ∨
      additionalPeanoOptFlags.data.getLastD ' ' ≠ '"' then none
  else
    let stripped := (additionalPeanoOptFlags.data.drop 1).dropLast
    some ((splitFlags stripped).foldl addFlag args)

/-! ## Process runner (`runTool`, lines 406–510)

External effects are abstracted into a record of facts about the one
process the call would run: whether the program file exists, whether the
redirect temporary file could be created, the exit code, the captured
combined output and the spawn error message. -/

/-- Facts about the execution environment of one `runTool` call. -/
structure ProcessSpec where
  programExists : Bool
  tmpFileOk : Bool
  exitCode : Int
  captured : String
  errMsg : String

/-- Outcome of `runTool`: overall success, whether the process was
actually spawned, and the diagnostic text written on failure. -/
structure RunToolResult where
  ok : Bool
  executed : Bool
  diagnostic : Option String

/-- `runTool` (non-Windows path): fail with no execution attempt when the
program path does not exist; fail before execution when the temporary
redirect file cannot be created; otherwise spawn and succeed iff the exit
code is zero, surfacing the spawn error message and captured output on
failure. -/
def runTool (program : String) (p : ProcessSpec) : RunToolResult :=
  if p.programExists = false then
    { ok := false, executed := false,
      diagnostic := some ("Program " ++ program ++ " does not exist\n") }
  else if p.tmpFileOk = false then
    { ok := false, executed := false,
      diagnostic := some "Failed to create temporary file" }
  else if p.exitCode ≠ 0 then
    { ok := false, executed := true,
      diagnostic := some ("Failed to run tool: " ++ program ++ ". Error: '"
        ++ p.errMsg ++ "'\n" ++ p.captured) }
  else { ok := true, executed := true, diagnostic := none }

/-! ## Per-core ELF file naming (`generateCoreElfFiles`, lines 595–602) -/

/-- The per-core ELF filename step: reuse a preset `elf_file` attribute,
else synthesize `core_<col>_<row>.elf` and store it on the core.  Returns
the filename used and the attribute value after the step. -/
def resolveElfFile (col row : Int) (elfFileAttr : Option String) :
    String × Option String :=
  match elfFileAttr with
  | some f => (f, some f)
  | none =>
    let f := "core_" ++ toString col ++ "_" ++ toString row ++ ".elf"
    (f, some f)

/-! ## JSON documents (`makeKernelJSON`, `generateXCLBin`)

A small JSON value type mirroring `llvm::json::Value` as used by the
source: strings, integers, arrays and objects (ordered key/value lists). -/

inductive Json where
  | str : String → Json
  | num : Int → Json
  | arr : List Json → Json
  | obj : List (String × Json) → Json

/-- First-match association lookup, as `json::Object::get` does. -/
def lookupList : List (String × Json) → String → Option Json
  | [], _ => none
  | (k', v) :: rest, k => if k' = k then some v else lookupList rest k

/-- `json::Object` member lookup; `none` on non-objects or missing keys
(the C++ returns a null pointer there). -/
def Json.lookup : Json → String → Option Json
  | .obj kvs, k => lookupList kvs k
  | _, _ => none

/-- View a value as an array, as `getArray` does. -/
def Json.asArr : Json → Option (List Json)
  | .arr l => some l
  | _ => none

/-- Replace the value stored under the first occurrence of `k`. -/
def setKeyList (kvs : List (String × Json)) (k : String) (v : Json) :
    List (String × Json) :=
  match kvs with
  | [] => []
  | (k', v') :: rest =>
    if k' = k then (k', v) :: rest else (k', v') :: setKeyList rest k v

/-- In-place member update on an object (the C++ mutates the array found
by `getObject(...)->getArray(...)` through a pointer). -/
def Json.setKey : Json → String → Json → Json
  | .obj kvs, k, v => .obj (setKeyList kvs k v)
  | j, _, _ => j

/-- `makeKernelJSON` (lines 738–790), translated field by field. -/
def makeKernelJSON (name id instCName : String) : Json :=
  .obj [("name", .str name),
        ("type", .str "dpu"),
        ("extended-data",
         .obj [("subtype", .str "DPU"), ("functional", .str "0"),
               ("dpu_kernel_id", .str id)]),
        ("arguments", .arr
          [.obj [("name", .str "opcode"), ("address-qualifier", .str "SCALAR"),
                 ("type", .str "uint64_t"), ("offset", .str "0x00")],
           .obj [("name", .str "instr"), ("memory-connection", .str "SRAM"),
                 ("address-qualifier", .str "GLOBAL"),
                 ("type", .str "char *"), ("offset", .str "0x08")],
           .obj [("name", .str "ninstr"), ("address-qualifier", .str "SCALAR"),
                 ("type", .str "uint32_t"), ("offset", .str "0x10")],
           .obj [("name", .str "bo0"), ("memory-connection", .str "HOST"),
                 ("address-qualifier", .str "GLOBAL"),
                 ("type", .str "void*"), ("offset", .str "0x14")],
           .obj [("name", .str "bo1"), ("memory-connection", .str "HOST"),
                 ("address-qualifier", .str "GLOBAL"),
                 ("type", .str "void*"), ("offset", .str "0x1c")],
           .obj [("name", .str "bo2"), ("memory-connection", .str "HOST"),
                 ("address-qualifier", .str "GLOBAL"),
                 ("type", .str "void*"), ("offset", .str "0x24")],
           .obj [("name", .str "bo3"), ("memory-connection", .str "HOST"),
                 ("address-qualifier", .str "GLOBAL"),
                 ("type", .str "void*"), ("offset", .str "0x2c")],
           .obj [("name", .str "bo4"), ("memory-connection", .str "HOST"),
                 ("address-qualifier", .str "GLOBAL"),
                 ("type", .str "void*"), ("offset", .str "0x34")],
           .obj [("name", .str "bo5"), ("memory-connection", .str "HOST"),
                 ("address-qualifier", .str "GLOBAL"),
                 ("type", .str "void*"), ("offset", .str "0x3c")]]),
        ("instances", .arr [.obj [("name", .str instCName)]])]

/-- The `kernels.json` document built in `generateXCLBin` (lines 932–949):
a `ps-kernels` object holding a single-element kernel array. -/
def kernelsJson (kernelName kernelId instCName : String) : Json :=
  .obj [("ps-kernels",
         .obj [("kernels", .arr [makeKernelJSON kernelName kernelId instCName])])]

/-- The single PDI entry of the freshly generated `aie_partition.json`
(string template, lines 900–919). -/
def pdiEntry (uuid kernelId : String) : Json :=
  .obj [("uuid", .str uuid),
        ("file_name", .str "./design.pdi"),
        ("cdo_groups", .arr
          [.obj [("name", .str "DPU"), ("type", .str "PRIMARY"),
                 ("pdi_id", .str "0x01"),
                 ("dpu_kernel_ids", .arr [.str kernelId]),
                 ("pre_cdo_groups", .arr [.str "0xC1"])]])]

/-- The freshly generated `aie_partition.json` document (lines 889–922),
as the JSON parser in the merge path would read it back. -/
def aiePartitionDoc (uuid kernelId : String) : Json :=
  .obj [("aie_partition",
         .obj [("name", .str "QoS"),
               ("operations_per_cycle", .str "2048"),
               ("inference_fingerprint", .str "23423"),
               ("pre_post_fingerprint", .str "12345"),
               ("partition",
                .obj [("column_width", .num 4),
                      ("start_columns", .arr [.num 1])]),
               ("PDIs", .arr [pdiEntry uuid kernelId])])]

/-- The base-container merge in `generateXCLBin` (lines 985–1016): read the
`PDIs` arrays of the dumped base partition document and of the newly
generated one, insert the new entries at the end of the base array, and
rewrite the base document with the extended array.  `none` models the
null-pointer dereferences the C++ would perform on malformed documents. -/
def mergePartitionDocs (baseDoc newDoc : Json) : Option Json :=
  match baseDoc.lookup "aie_partition" with
  | none => none
  | some basePart =>
    match (basePart.lookup "PDIs").bind Json.asArr with
    | none => none
    | some basePDIs =>
      match newDoc.lookup "aie_partition" with
      | none => none
      | some newPart =>
        match (newPart.lookup "PDIs").bind Json.asArr with
        | none => none
        | some newPDIs =>
          some (baseDoc.setKey "aie_partition"
            (basePart.setKey "PDIs" (.arr (basePDIs ++ newPDIs))))

/-! ## End-to-end pipeline model (`aie2xclbin`, lines 1212–1294)

The pipeline is modelled as a function from a configuration to a pair
`(succeeded, trace)` where `trace` is the ordered list of external tool
executions (`runTool` calls) the run performs.  Steps that invoke no
external tool (file writes, MLIR pass pipelines, CDO translation, the
embedded bootgen subroutine, the final copy) are abstracted as boolean
outcome fields of the configuration; the identity and order of external
tool executions follow the source. -/

/-- The external programs the pipeline can execute via `runTool`.
`bootgen` is an embedded subroutine in the source, not a subprocess, so it
does not appear here. -/
inductive Tool where
  | xchesscc
  | peanoOpt
  | peanoLLC
  | peanoClang
  | xclbinutil
deriving DecidableEq

/-- One tile of the device module: coordinates and whether it carries a
compute core (`getCoreOp`). -/
structure TileM where
  col : Int
  row : Int
  hasCore : Bool

/-- Pipeline configuration: the `aie2xclbin` arguments together with the
abstracted outcomes of the non-tool effects. -/
structure PipelineCfg where
  useChess : Bool
  ukernel : Option String
  env : VitisEnv
  npuVersion : String
  additionalPeanoOptFlags : String
  /-- Exit status each external tool would report when executed
  (`runTool` success, covering program existence and exit code). -/
  toolOk : Tool → Bool
  /-- Whether `<cwd>/mm_npuN.o` exists before the run (memoization). -/
  mmObjCached : Bool
  /-- Whether `<cwd>/chess_intrinsic_wrapper.o` exists.  The assembled
  intrinsics object is written to the temp dir, not to cwd, so this flag
  never changes during a run. -/
  intrinsicsCached : Bool
  tiles : List TileM
  /-- Whether an `--aie2xclbin-print-npu` output path was supplied. -/
  outputNPU : Bool
  /-- The `npu_instructions` attribute: `none` when absent or of the wrong
  type, `some ws` for a word sequence. -/
  npuAttr : Option (List Nat)
  /-- MLIR lowering and LLVM-IR translation outcome in
  `generateUnifiedObject` (no external tool involved). -/
  lowerOk : Bool
  /-- Control-packet pass pipeline requested / outcome. -/
  emitCtrlPkt : Bool
  ctrlPktOk : Bool
  /-- `AIETranslateToCDODirect` outcome. -/
  cdoOk : Bool
  /-- Embedded `iree_aie_bootgen_main` outcome. -/
  bootgenOk : Bool
  /-- `XRT_LITE` ("lite") vs `XRT` ("full") deployment target. -/
  lite : Bool
  /-- `findAMDAIETool("iree-aie-xclbinutil", ...)` outcome. -/
  xclbinutilFound : Bool
  /-- Parsed content of the dumped base-container partition document, when
  a base container was supplied. -/
  inputXclbin : Option Json
  /-- Identifier drawn from the process-wide UUID generator. -/
  uuid : String
  xclBinKernelId : String

/-- `ukernel && (ukernel == "mm" || ukernel == "all")`. -/
def ukernelRequested (u : Option String) : Bool :=
  match u with
  | some s => s == "mm" || s == "all"
  | none => false

/-- `generateUnifiedObject` (lines 1041–1142): lower the module, then
either assemble with chess (after `findVitis`) or run peano `opt`
followed by peano `llc`. -/
def generateUnifiedObjectM (cfg : PipelineCfg) : Bool × List Tool :=
  if cfg.lowerOk = false then (false, [])
  else if cfg.useChess then
    match findVitis cfg.env cfg.npuVersion with
    | none => (false, [])
    | some _ => (cfg.toolOk .xchesscc, [.xchesscc])
  else
    match makePeanoOptArgs "input.ll" "input.opt.ll" cfg.additionalPeanoOptFlags with
    | none => (false, [])
    | some _ =>
      if cfg.toolOk .peanoOpt = false then (false, [.peanoOpt])
      else if cfg.toolOk .peanoLLC = false then (false, [.peanoOpt, .peanoLLC])
      else (true, [.peanoOpt, .peanoLLC])

/-- State threaded through the per-tile loop of `generateCoreElfFiles`:
tool trace so far and whether `<cwd>/mm_npuN.o` now exists. -/
structure CoreSt where
  trace : List Tool
  mmCached : Bool

/-- Microkernel-object step (lines 607–629): when a microkernel is
requested, require `findVitis` to succeed, then assemble `mm_npuN.o` with
chess unless it is already cached in the current working directory. -/
def ukernelStep (cfg : PipelineCfg) (st : CoreSt) : Except (List Tool) CoreSt :=
  if ukernelRequested cfg.ukernel = false then .ok st
  else
    match findVitis cfg.env cfg.npuVersion with
    | none => .error st.trace
    | some _ =>
      if st.mmCached then .ok st
      else
        let tr := st.trace ++ [Tool.xchesscc]
        if cfg.toolOk .xchesscc then .ok { trace := tr, mmCached := true }
        else .error tr

/-- Vendor-backend link step (lines 631–683): `findVitis`, assemble the
intrinsics wrapper with chess unless cached in cwd (the assembled object
lands in the temp dir, so the cache flag does not change), write the BCF
(no tool), then link with `xchesscc`. -/
def chessLinkStep (cfg : PipelineCfg) (st : CoreSt) : Except (List Tool) CoreSt :=
  match findVitis cfg.env cfg.npuVersion with
  | none => .error st.trace
  | some _ =>
    let afterIntrinsics : Except (List Tool) CoreSt :=
      if cfg.intrinsicsCached then .ok st
      else
        let tr := st.trace ++ [Tool.xchesscc]
        if cfg.toolOk .xchesscc then .ok { st with trace := tr }
        else .error tr
    match afterIntrinsics with
    | .error tr => .error tr
    | .ok st2 =>
      let tr := st2.trace ++ [Tool.xchesscc]
      if cfg.toolOk .xchesscc then .ok { st2 with trace := tr }
      else .error tr

/-- Open-backend link step (lines 684–720): write the linker script (no
tool), then run the peano `clang` driver. -/
def peanoLinkStep (cfg : PipelineCfg) (st : CoreSt) : Except (List Tool) CoreSt :=
  let tr := st.trace ++ [Tool.peanoClang]
  if cfg.toolOk .peanoClang then .ok { st with trace := tr }
  else .error tr

/-- The per-tile loop of `generateCoreElfFiles` (lines 589–722): skip
tiles without a compute core; otherwise microkernel step, then the
backend-specific link step. -/
def coreLoop (cfg : PipelineCfg) : List TileM → CoreSt → Bool × List Tool
  | [], st => (true, st.trace)
  | t :: rest, st =>
    if t.hasCore = false then coreLoop cfg rest st
    else
      match ukernelStep cfg st with
      | .error tr => (false, tr)
      | .ok st1 =>
        match (if cfg.useChess then chessLinkStep cfg st1 else peanoLinkStep cfg st1) with
        | .error tr => (false, tr)
        | .ok st2 => coreLoop cfg rest st2

/-- `generateCoreElfFiles` (lines 564–723): the hardware-family gate
(lines 576–587) followed by the per-tile loop. -/
def generateCoreElfFilesM (cfg : PipelineCfg) (tr : List Tool) : Bool × List Tool :=
  if cfg.npuVersion == "npu1" || cfg.npuVersion == "npu4" then
    coreLoop cfg cfg.tiles { trace := tr, mmCached := cfg.mmObjCached }
  else (false, tr)

/-- `generateXCLBin` (lines 845–1024), tool-trace part: JSON writes (no
tool), a second `generatePDI` (embedded bootgen), locate `xclbinutil`,
optionally dump the base container's partition with one `xclbinutil` run
and merge the PDI lists, then the final packaging `xclbinutil` run. -/
def generateXCLBinM (cfg : PipelineCfg) (tr : List Tool) : Bool × List Tool :=
  if cfg.bootgenOk = false then (false, tr)
  else if cfg.xclbinutilFound = false then (false, tr)
  else
    match cfg.inputXclbin with
    | none =>
      let tr2 := tr ++ [Tool.xclbinutil]
      (cfg.toolOk .xclbinutil, tr2)
    | some baseDoc =>
      let tr2 := tr ++ [Tool.xclbinutil]
      if cfg.toolOk .xclbinutil = false then (false, tr2)
      else
        match mergePartitionDocs baseDoc (aiePartitionDoc cfg.uuid cfg.xclBinKernelId) with
        | none => (false, tr2)
        | some _ =>
          let tr3 := tr2 ++ [Tool.xclbinutil]
          (cfg.toolOk .xclbinutil, tr3)

/-- The guard of stage (1) of `aie2xclbin`: when an instruction-dump
path is supplied, `emitNpuInstructions` must succeed (`npu_instructions`
attribute present, of the right type, and its accesses in bounds). -/
def npuDumpOkM (cfg : PipelineCfg) : Bool :=
  if cfg.outputNPU then
    match cfg.npuAttr with
    | none => false
    | some ws => (emitNpuInstructionsText ws).isSome
  else true

/-- Stages (2)–(7) of `aie2xclbin`: unified object, per-core ELFs,
optional control packets, CDO, PDI, then the deployment-target branch. -/
def aie2xclbinTail (cfg : PipelineCfg) : Bool × List Tool :=
  let u := generateUnifiedObjectM cfg
  if u.1 = false then (false, u.2)
  else
    let c := generateCoreElfFilesM cfg u.2
    if c.1 = false then (false, c.2)
    else if cfg.emitCtrlPkt && !cfg.ctrlPktOk then (false, c.2)
    else if cfg.cdoOk = false then (false, c.2)
    else if cfg.bootgenOk = false then (false, c.2)
    else if cfg.lite then (true, c.2)
    else generateXCLBinM cfg c.2

/-- `aie2xclbin` (lines 1212–1294): optional instruction dump followed by
the build stages. -/
def aie2xclbinM (cfg : PipelineCfg) : Bool × List Tool :=
  if npuDumpOkM cfg = false then (false, []) else aie2xclbinTail cfg

/-! ## Claims -/

/-- C7: for every tile carrying a compute core, a missing ELF-filename
attribute is replaced by the synthesized name `core_<col>_<row>.elf`
(column 2, row 5 yields `core_2_5.elf`) which is stored on the core, and
a preset attribute (for example `custom.elf`) is reused without ever
being overwritten; once set, the name persists across repeated visits. -/
theorem C7_elf_file_naming :
    (∀ (col row : Int) (f : String), resolveElfFile col row (some f) = (f, some f)) ∧
    (∀ col row : Int,
      (resolveElfFile col row none).1 =
        "core_" ++ toString col ++ "_" ++ toString row ++ ".elf") ∧
    resolveElfFile 2 5 none = ("core_2_5.elf", some "core_2_5.elf") ∧
    resolveElfFile 2 5 (some "custom.elf") = ("custom.elf", some "custom.elf") ∧
    (∀ col row : Int,
      resolveElfFile col row (resolveElfFile col row none).2 =
        resolveElfFile col row none) := by
  refine ⟨fun _ _ _ => rfl, fun _ _ => rfl, by decide, by decide, fun _ _ => rfl⟩

/-- C10: `getTargetDir` succeeds exactly for the two recognized
hardware-family identifiers `npu1` and `npu4`, and the unchecked
dereferences of its result in `findVitis` and `makeChessEnv` (modelled as
`Option` binds) propagate its failure: for every other identifier both
functions fail. -/
theorem C10_getTargetDir_precondition :
    (∀ v : String, (getTargetDir v).isSome ↔ (v = "npu1" ∨ v = "npu4")) ∧
    (∀ (env : VitisEnv) (v : String), getTargetDir v = none → findVitis env v = none) ∧
    (∀ (d v : String) (inp : ChessEnvInput), getTargetDir v = none →
      makeChessEnv d v inp = none) := by
  refine ⟨?_, ?_, ?_⟩
  · intro v
    unfold getTargetDir
    by_cases h1 : v = "npu1"
    · simp [h1]
    · by_cases h2 : v = "npu4" <;> simp [h1, h2]
  · intro env v h
    unfold findVitis
    cases env.vitisDirOpt <;> simp [h]
  · intro d v inp h
    unfold makeChessEnv
    simp [h]

/-- C10 witness: `npu9` is not a recognized hardware family, so
`findVitis` fails on it for a fully-populated environment. -/
theorem C10_getTargetDir_precondition_witness :
    findVitis
      { vitisDirOpt := some "/vitis", xilinxdLicense := some "/l",
        lmLicense := none, pathExists := fun _ => true } "npu9" = none :=
  C10_getTargetDir_precondition.2.1 _ "npu9" rfl

/-- C5: `runTool` fails with no execution attempt whenever the program
path does not exist; when the process is executed, it succeeds exactly
when the exit code is zero, and a nonzero exit code produces the failure
diagnostic carrying the spawn error message and the captured output. -/
theorem C5_runTool_contract :
    (∀ (program : String) (p : ProcessSpec), p.programExists = false →
      (runTool program p).executed = false ∧ (runTool program p).ok = false) ∧
    (∀ (program : String) (p : ProcessSpec), (runTool program p).executed = true →
      ((runTool program p).ok = true ↔ p.exitCode = 0)) ∧
    (∀ (program : String) (p : ProcessSpec), (runTool program p).executed = true →
      p.exitCode ≠ 0 →
      (runTool program p).diagnostic =
        some ("Failed to run tool: " ++ program ++ ". Error: '" ++ p.errMsg
          ++ "'\n" ++ p.captured)) := by
  refine ⟨?_, ?_, ?_⟩
  · intro program p h
    unfold runTool
    simp [h]
  · intro program p h
    unfold runTool at *
    by_cases h1 : p.programExists = false
    · simp [h1] at h
    · by_cases h2 : p.tmpFileOk = false
      · simp [h1, h2] at h
      · by_cases h3 : p.exitCode = 0 <;> simp [h1, h2, h3]
  · intro program p h h0
    unfold runTool at *
    by_cases h1 : p.programExists = false
    · simp [h1] at h
    · by_cases h2 : p.tmpFileOk = false
      · simp [h1, h2] at h
      · simp [h1, h2, h0]

/-- A process whose program path does not exist. -/
def missingProgramSpec : ProcessSpec :=
  { programExists := false, tmpFileOk := true, exitCode := 0,
    captured := "", errMsg := "" }

/-- A spawned process that exited with code 2. -/
def failedProcessSpec : ProcessSpec :=
  { programExists := true, tmpFileOk := true, exitCode := 2,
    captured := "out", errMsg := "spawn" }

/-- C5 witness: a nonexistent program is reported as failed with no
execution attempt, and an executed process with exit code 2 fails with
the diagnostic carrying spawn error and captured output. -/
theorem C5_runTool_contract_witness :
    ((runTool "t" missingProgramSpec).executed = false ∧
      (runTool "t" missingProgramSpec).ok = false) ∧
    (runTool "t" failedProcessSpec).diagnostic =
      some ("Failed to run tool: " ++ "t" ++ ". Error: '" ++ "spawn"
        ++ "'\n" ++ "out") :=
  ⟨C5_runTool_contract.1 "t" _ rfl,
   C5_runTool_contract.2.2 "t" _ rfl (by decide)⟩

/-- An environment in which `XILINXD_LICENSE_FILE` names a file that does
not exist on disk, while every toolchain path exists. -/
def envXilinxdMissingFile : VitisEnv :=
  { vitisDirOpt := some "/vitis", xilinxdLicense := some "/lic.lic",
    lmLicense := none, pathExists := fun p => !(p == "/lic.lic") }

/-- C2 counterexample: the claim states that whenever either license
variable names a file, the file must exist on disk or resolution fails.
In the source the existence check (lines 267–270) sits inside the
`XILINXD_LICENSE_FILE`-unset branch, so a set `XILINXD_LICENSE_FILE`
naming a nonexistent file sails through: `findVitis` succeeds although
the named license file does not exist. -/
theorem C2_license_counterexample :
    envXilinxdMissingFile.xilinxdLicense = some "/lic.lic" ∧
    envXilinxdMissingFile.pathExists "/lic.lic" = false ∧
    findVitis envXilinxdMissingFile "npu1" = some "/vitis" :=
  ⟨rfl, rfl, rfl⟩

/-- C2 (amended): resolution fails when neither license variable is set;
when `XILINXD_LICENSE_FILE` is unset and `LM_LICENSE_FILE` names a file,
that file must exist on disk or resolution fails; when
`XILINXD_LICENSE_FILE` is set, no existence check is applied to it.  A
failing license gate always makes `findVitis` fail, and a successful
`findVitis` implies the gate passed. -/
theorem C2_license_amended :
    (∀ fe : String → Bool, licenseCheck none none fe = false) ∧
    (∀ (f : String) (fe : String → Bool), licenseCheck none (some f) fe = fe f) ∧
    (∀ (f : String) (lm : Option String) (fe : String → Bool),
      licenseCheck (some f) lm fe = true) ∧
    (∀ (env : VitisEnv) (npu : String),
      licenseCheck env.xilinxdLicense env.lmLicense env.pathExists = false →
      findVitis env npu = none) ∧
    (∀ (env : VitisEnv) (npu d : String), findVitis env npu = some d →
      licenseCheck env.xilinxdLicense env.lmLicense env.pathExists = true) := by
  refine ⟨fun _ => rfl, fun _ _ => rfl, fun _ _ _ => rfl, ?_, ?_⟩
  · intro env npu h
    unfold findVitis
    cases env.vitisDirOpt <;> simp [h]
  · intro env npu d h
    unfold findVitis at h
    cases hvd : env.vitisDirOpt with
    | none => rw [hvd] at h; exact absurd h (by simp)
    | some d' =>
      rw [hvd] at h
      by_cases hl : licenseCheck env.xilinxdLicense env.lmLicense env.pathExists
      · exact hl
      · simp [hl] at h

/-- C2 witness: with both license variables unset, `findVitis` fails even
when every path exists. -/
theorem C2_license_amended_witness :
    findVitis
      { vitisDirOpt := some "/vitis", xilinxdLicense := none,
        lmLicense := none, pathExists := fun _ => true } "npu1" = none :=
  C2_license_amended.2.2.2.1 _ "npu1" rfl

/-- C4: with the default argument list (which holds `-O3` at index 6) and
the quote-wrapped additional flag `"-O2"`, `makePeanoOptArgs` replaces
`-O3` in place: the result holds `-O2` exactly once, at the position
previously held by `-O3`, and no `-O3`.  In general a supplied
optimization-level flag replaces the first contending flag in place,
and a non-optimization-level flag (which contends with nothing) is
appended at the end. -/
theorem C4_makePeanoOptArgs_conflict :
    (∀ filenameIrIn filenameIrOut : String,
      makePeanoOptArgs filenameIrIn filenameIrOut "\"-O2\"" =
        some ((defaultPeanoArgs filenameIrIn filenameIrOut).set 6 "-O2")) ∧
    (defaultPeanoArgs "input.ll" "output.ll")[6]? = some "-O3" ∧
    ((defaultPeanoArgs "input.ll" "output.ll").set 6 "-O2").count "-O2" = 1 ∧
    ((defaultPeanoArgs "input.ll" "output.ll").set 6 "-O2")[6]? = some "-O2" ∧
    "-O3" ∉ (defaultPeanoArgs "input.ll" "output.ll").set 6 "-O2" ∧
    ((defaultPeanoArgs "input.ll" "output.ll").set 6 "-O2").length =
      (defaultPeanoArgs "input.ll" "output.ll").length ∧
    (∀ (args : List String) (flag : String), isOptLevelFlag flag = false →
      addFlag args flag = args ++ [flag]) ∧
    (∀ (args : List String) (flag : String) (i : Nat),
      findFirstContention args flag = some i →
      addFlag args flag = args.set i flag) := by
  refine ⟨fun _ _ => rfl, by decide, by decide, by decide, by decide, by decide, ?_, ?_⟩
  · intro args flag h
    have hnone : findFirstContention args flag = none := by
      induction args with
      | nil => rfl
      | cons a rest ih => simp [findFirstContention, isContention, h, ih]
    unfold addFlag
    rw [hnone]
  · intro args flag i h
    unfold addFlag
    rw [h]

/-- C4 witness: an optimization-level flag found contending at index 0 is
replaced in place, and a non-optimization flag is appended. -/
theorem C4_makePeanoOptArgs_conflict_witness :
    addFlag ["-O3"] "-O2" = (["-O3"] : List String).set 0 "-O2" ∧
    addFlag ["-O3"] "-fast" = ["-O3"] ++ ["-fast"] :=
  ⟨C4_makePeanoOptArgs_conflict.2.2.2.2.2.2.2 ["-O3"] "-O2" 0 rfl,
   C4_makePeanoOptArgs_conflict.2.2.2.2.2.2.1 ["-O3"] "-fast" rfl⟩

/-- Kernel-entry list of a `kernels.json` document. -/
def kernelEntriesOf (j : Json) : Option (List Json) :=
  ((j.lookup "ps-kernels").bind (fun k => k.lookup "kernels")).bind Json.asArr

/-- Argument list of one kernel entry. -/
def argsOf (k : Json) : Option (List Json) :=
  (k.lookup "arguments").bind Json.asArr

/-- The value of one field across a list of argument objects. -/
def argField (field : String) (args : List Json) : List (Option Json) :=
  args.map (fun a => a.lookup field)

/-- Whether an argument object is a host buffer-object pointer
(`memory-connection` equal to `HOST`). -/
def isHostArg (a : Json) : Bool :=
  match a.lookup "memory-connection" with
  | some (.str s) => s == "HOST"
  | _ => false

/-- C3 counterexample: the claim says the kernel argument list holds five
host buffer-object pointers; `makeKernelJSON` emits six (`bo0` … `bo5`,
at offsets 0x14, 0x1c, 0x24, 0x2c, 0x34 and 0x3c). -/
theorem C3_kernel_abi_counterexample :
    (argsOf (makeKernelJSON "kern" "0x901" "inst")).map
        (fun l => (l.filter isHostArg).length) = some 6 ∧
    (argsOf (makeKernelJSON "kern" "0x901" "inst")).map
        (fun l => (l.filter isHostArg).length) ≠ some 5 := by
  constructor
  · rfl
  · intro h
    rw [show (argsOf (makeKernelJSON "kern" "0x901" "inst")).map
        (fun l => (l.filter isHostArg).length) = some 6 from rfl] at h
    exact absurd h (by decide)

/-- C3 (amended): for every kernel name, id and instance name, the kernel
descriptor contains exactly one kernel entry whose argument list is a
fixed 9-slot ABI — a scalar opcode at 0x00, an instruction-buffer pointer
(global, SRAM) at 0x08, a scalar instruction count at 0x10, and six host
buffer-object pointers at 0x14, 0x1c, 0x24, 0x2c, 0x34, 0x3c stepping
by 8. -/
theorem C3_kernel_abi_amended :
    ∀ name id instName : String,
    (kernelEntriesOf (kernelsJson name id instName)).map List.length = some 1 ∧
    (argsOf (makeKernelJSON name id instName)).map List.length = some 9 ∧
    (argsOf (makeKernelJSON name id instName)).map (argField "offset") =
      some [some (.str "0x00"), some (.str "0x08"), some (.str "0x10"),
        some (.str "0x14"), some (.str "0x1c"), some (.str "0x24"),
        some (.str "0x2c"), some (.str "0x34"), some (.str "0x3c")] ∧
    (argsOf (makeKernelJSON name id instName)).map (argField "name") =
      some [some (.str "opcode"), some (.str "instr"), some (.str "ninstr"),
        some (.str "bo0"), some (.str "bo1"), some (.str "bo2"),
        some (.str "bo3"), some (.str "bo4"), some (.str "bo5")] ∧
    (argsOf (makeKernelJSON name id instName)).map (argField "address-qualifier") =
      some [some (.str "SCALAR"), some (.str "GLOBAL"), some (.str "SCALAR"),
        some (.str "GLOBAL"), some (.str "GLOBAL"), some (.str "GLOBAL"),
        some (.str "GLOBAL"), some (.str "GLOBAL"), some (.str "GLOBAL")] ∧
    (argsOf (makeKernelJSON name id instName)).map (argField "memory-connection") =
      some [none, some (.str "SRAM"), none,
        some (.str "HOST"), some (.str "HOST"), some (.str "HOST"),
        some (.str "HOST"), some (.str "HOST"), some (.str "HOST")] :=
  fun _ _ _ => ⟨rfl, rfl, rfl, rfl, rfl, rfl⟩

/-- Updating the value stored under a present key makes a later lookup of
that key return the new value. -/
theorem lookupList_setKeyList (kvs : List (String × Json)) (k : String)
    (v w : Json) (h : lookupList kvs k = some w) :
    lookupList (setKeyList kvs k v) k = some v := by
  induction kvs with
  | nil => simp [lookupList] at h
  | cons kv rest ih =>
    obtain ⟨k', v'⟩ := kv
    by_cases hk : k' = k
    · simp [lookupList, setKeyList, hk]
    · simp only [lookupList, setKeyList, if_neg hk] at h ⊢
      exact ih h

/-- Object-level version of `lookupList_setKeyList`. -/
theorem lookup_setKey (j : Json) (k : String) (v w : Json)
    (h : j.lookup k = some w) : (j.setKey k v).lookup k = some v := by
  cases j with
  | obj kvs => exact lookupList_setKeyList kvs k v w h
  | str s => simp [Json.lookup] at h
  | num n => simp [Json.lookup] at h
  | arr l => simp [Json.lookup] at h

/-- C8: when a base container is supplied, the rewritten partition
document's PDI list equals the base container's extracted PDI entries
followed by exactly the one newly generated PDI entry appended at the
end, in that order, with no base entry removed or reordered. -/
theorem C8_pdi_merge :
    ∀ (baseDoc basePart : Json) (basePDIs : List Json) (uuid kid : String),
    baseDoc.lookup "aie_partition" = some basePart →
    basePart.lookup "PDIs" = some (.arr basePDIs) →
    ∃ merged,
      mergePartitionDocs baseDoc (aiePartitionDoc uuid kid) = some merged ∧
      ((merged.lookup "aie_partition").bind (fun p => p.lookup "PDIs")) =
        some (.arr (basePDIs ++ [pdiEntry uuid kid])) := by
  intro baseDoc basePart basePDIs uuid kid h1 h2
  have hnewPart : (aiePartitionDoc uuid kid).lookup "aie_partition" ≠ none := by
    simp [aiePartitionDoc, Json.lookup, lookupList]
  refine ⟨baseDoc.setKey "aie_partition"
    (basePart.setKey "PDIs" (.arr (basePDIs ++ [pdiEntry uuid kid]))), ?_, ?_⟩
  · unfold mergePartitionDocs
    rw [h1]
    simp only [h2, Option.some_bind, Json.asArr]
    rfl
  · have houter :
        (baseDoc.setKey "aie_partition"
          (basePart.setKey "PDIs" (.arr (basePDIs ++ [pdiEntry uuid kid])))).lookup
            "aie_partition" =
          some (basePart.setKey "PDIs" (.arr (basePDIs ++ [pdiEntry uuid kid]))) :=
      lookup_setKey baseDoc "aie_partition" _ basePart h1
    rw [houter]
    have hinner :
        (basePart.setKey "PDIs" (.arr (basePDIs ++ [pdiEntry uuid kid]))).lookup
            "PDIs" = some (.arr (basePDIs ++ [pdiEntry uuid kid])) :=
      lookup_setKey basePart "PDIs" _ (.arr basePDIs) h2
    rw [Option.some_bind, hinner]

/-- A base partition document with two PDI entries, standing for the
section dumped out of a supplied base container. -/
def basePartitionDocExample : Json :=
  .obj [("aie_partition",
         .obj [("name", .str "base"),
               ("PDIs", .arr [.str "pdi0", .str "pdi1"])])]

/-- C8 witness: merging a two-entry base partition document appends the
single new entry at the end. -/
theorem C8_pdi_merge_witness :
    ∃ merged,
      mergePartitionDocs basePartitionDocExample (aiePartitionDoc "u-u" "0x901") =
        some merged ∧
      ((merged.lookup "aie_partition").bind (fun p => p.lookup "PDIs")) =
        some (.arr ([.str "pdi0", .str "pdi1"] ++ [pdiEntry "u-u" "0x901"])) :=
  C8_pdi_merge basePartitionDocExample _ [.str "pdi0", .str "pdi1"] "u-u" "0x901"
    rfl rfl

/-- The case-split definition of the wrapped loop bound agrees with the
plain `size_t` formula `(n + 2^64 - 1) mod 2^64`. -/
theorem npuLoopBound_spec (n : Nat) :
    npuLoopBound n = (n + (2 ^ 64 - 1)) % 2 ^ 64 := by
  cases n with
  | zero =>
    show 2 ^ 64 - 1 = (0 + (2 ^ 64 - 1)) % 2 ^ 64
    rw [Nat.zero_add, Nat.mod_eq_of_lt (by omega)]
  | succ m =>
    show m % 2 ^ 64 = (m + 1 + (2 ^ 64 - 1)) % 2 ^ 64
    have he : m + 1 + (2 ^ 64 - 1) = m + 2 ^ 64 := by omega
    rw [he, Nat.add_mod_right]

/-- The modular loop bound stays below the array length whenever the
array is non-empty — every loop access is then in bounds. -/
theorem npuLoopBound_lt (n : Nat) (h : 1 ≤ n) : npuLoopBound n < n := by
  cases n with
  | zero => omega
  | succ m =>
    show m % 2 ^ 64 < m + 1
    exact Nat.lt_succ_of_le (Nat.mod_le m _)

/-- For any real array (length at most `2^64`) the wrapped bound is
exactly `length - 1`, as the C++ intends for non-empty input. -/
theorem npuLoopBound_eq (n : Nat) (h1 : 1 ≤ n) (h2 : n ≤ 2 ^ 64) :
    npuLoopBound n = n - 1 := by
  cases n with
  | zero => omega
  | succ m =>
    show m % 2 ^ 64 = m + 1 - 1
    rw [Nat.mod_eq_of_lt (by omega), Nat.add_sub_cancel]

/-- With an in-range bound, the dump loop succeeds and yields the hex
line of each of the first `m` words. -/
theorem npuLoopPieces_eq (ws : List Nat) :
    ∀ m, m ≤ ws.length →
      npuLoopPieces ws m = some ((ws.take m).map (fun w => hex8 w ++ "\n")) := by
  intro m
  induction m with
  | zero => intro _; rfl
  | succ k ih =>
    intro h
    have hk : k ≤ ws.length := Nat.le_of_succ_le h
    have hklt : k < ws.length := h
    have ihk := ih hk
    have hgk : ws[k]? = some ws[k] := List.getElem?_eq_getElem hklt
    have hsingle :
        (([k].mapM (fun i => (ws[i]?).map (fun w => hex8 w ++ "\n"))) :
            Option (List String)) = some [hex8 ws[k] ++ "\n"] := by
      rw [List.mapM_cons, hgk]
      rfl
    unfold npuLoopPieces at ihk ⊢
    rw [List.range_succ, List.mapM_append, ihk]
    simp only [Option.bind_eq_bind, Option.some_bind, hsingle, Option.pure_def]
    rw [List.take_succ, hgk, List.map_append]
    rfl

/-- On the empty array the wrapped bound is positive, so the very first
loop access is already out of bounds. -/
theorem npuLoopPieces_empty (m : Nat) (h : 1 ≤ m) :
    npuLoopPieces ([] : List Nat) m = none := by
  obtain ⟨k, rfl⟩ : ∃ k, m = k + 1 := ⟨m - 1, by omega⟩
  unfold npuLoopPieces
  rw [List.range_succ_eq_map, List.mapM_cons]
  simp

/-- Splicing the dumped lines: all words but the last, each with a
trailing newline, followed by the bare last word, is exactly the
newline-separated join of all the hex words. -/
theorem concat_dropLast_hex (ws : List Nat) (h : ws ≠ []) :
    concatStrings ((ws.dropLast).map (fun w => hex8 w ++ "\n"))
        ++ hex8 (ws.getLast h) = joinWithNewlines (ws.map hex8) := by
  induction ws with
  | nil => exact absurd rfl h
  | cons a tail ih =>
    cases tail with
    | nil => simp [concatStrings, joinWithNewlines, List.getLast]
    | cons b rest =>
      have htail : b :: rest ≠ [] := by simp
      have hlast : (a :: b :: rest).getLast (by simp) = (b :: rest).getLast htail :=
        List.getLast_cons htail
      have hdrop : (a :: b :: rest).dropLast = a :: (b :: rest).dropLast := rfl
      rw [hdrop, hlast]
      simp only [List.map_cons, concatStrings]
      rw [String.append_assoc, ih htail]
      have hjoin2 : joinWithNewlines (hex8 a :: hex8 b :: List.map hex8 rest) =
          hex8 a ++ "\n" ++ joinWithNewlines (hex8 b :: List.map hex8 rest) := rfl
      rw [hjoin2]
      simp

/-- C6: for every non-empty word sequence (of any realizable length) the
dump is the newline-separated join of the 8-digit uppercase-hex renderings
with no trailing newline; each rendered word is exactly eight characters
drawn from the uppercase hex digits; the final character of the dump is
never a newline; and the 3-word sequence `[0x1, 0x2, 0x3]` produces
exactly `00000001\n00000002\n00000003`. -/
theorem C6_npu_instruction_dump :
    (∀ ws : List Nat, ws ≠ [] → ws.length ≤ 2 ^ 64 →
      emitNpuInstructionsText ws = some (joinWithNewlines (ws.map hex8))) ∧
    (∀ w : Nat, (hex8 w).length = 8) ∧
    (∀ w : Nat, ∀ c ∈ (hex8 w).data, c ∈ upperHexDigits) ∧
    (∀ (ws : List Nat) (s : String), emitNpuInstructionsText ws = some s →
      s.data.getLast? ≠ some '\n') ∧
    emitNpuInstructionsText [1, 2, 3] = some "00000001\n00000002\n00000003" := by
  have hexMem : ∀ (n : Nat), hexDigitChar n ∈ upperHexDigits := by
    intro n
    unfold hexDigitChar
    rcases Nat.lt_or_ge n upperHexDigits.length with h | h
    · rw [List.getD_eq_getElem _ _ h]
      exact List.getElem_mem h
    · rw [List.getD_eq_default _ '0' h]
      decide
  have hexData : ∀ w : Nat, (hex8 w).data =
      (List.range 8).map (fun k => hexDigitChar (w / 16 ^ (7 - k) % 16)) :=
    fun w => rfl
  refine ⟨?_, ?_, ?_, ?_, by decide⟩
  · intro ws hne hlen
    have h1 : 1 ≤ ws.length := by
      cases ws with
      | nil => exact absurd rfl hne
      | cons a l => simp
    unfold emitNpuInstructionsText
    rw [npuLoopBound_eq ws.length h1 hlen,
      npuLoopPieces_eq ws (ws.length - 1) (by omega),
      List.getLast?_eq_getLast ws hne]
    show some (concatStrings ((ws.take (ws.length - 1)).map (fun w => hex8 w ++ "\n"))
        ++ hex8 (ws.getLast hne)) = some (joinWithNewlines (ws.map hex8))
    rw [← List.dropLast_eq_take, concat_dropLast_hex ws hne]
  · intro w
    have : (hex8 w).length = (hex8 w).data.length := rfl
    rw [this, hexData]
    simp
  · intro w c hc
    rw [hexData] at hc
    obtain ⟨k, _, rfl⟩ := List.mem_map.mp hc
    exact hexMem _
  · intro ws s h hlastnl
    unfold emitNpuInstructionsText at h
    cases hp : npuLoopPieces ws (npuLoopBound ws.length) with
    | none => rw [hp] at h; exact absurd h (by simp)
    | some pieces =>
      rw [hp] at h
      cases hl : ws.getLast? with
      | none => rw [hl] at h; exact absurd h (by simp)
      | some last =>
        rw [hl] at h
        have hs : s = concatStrings pieces ++ hex8 last := by
          have := h
          simp only [Option.some.injEq] at this
          exact this.symm
        have hdata : s.data = (concatStrings pieces).data ++ (hex8 last).data := by
          rw [hs]
          rfl
        rw [hdata, List.getLast?_append] at hlastnl
        have hlen8 : (hex8 last).data.length = 8 := by
          rw [hexData]; simp
        have hnonempty : (hex8 last).data ≠ [] := by
          intro hempty
          rw [hempty] at hlen8
          simp at hlen8
        have hororeq : ((hex8 last).data.getLast?.or
            (concatStrings pieces).data.getLast?) = (hex8 last).data.getLast? := by
          cases hgl : (hex8 last).data.getLast? with
          | none =>
            exact absurd (List.getLast?_eq_none_iff.mp hgl) hnonempty
          | some c => rfl
        rw [hororeq] at hlastnl
        have hmem : '\n' ∈ (hex8 last).data :=
          List.mem_of_mem_getLast? (Option.mem_def.mpr hlastnl)
        have : ('\n' : Char) ∈ upperHexDigits := by
          rw [hexData] at hmem
          obtain ⟨k, _, hk⟩ := List.mem_map.mp hmem
          rw [← hk]
          exact hexMem _
        exact absurd this (by decide)

/-- C6 witness: the theorem applied to the non-empty sequence `[7]`. -/
theorem C6_npu_instruction_dump_witness :
    emitNpuInstructionsText [7] = some (joinWithNewlines ([7].map hex8)) :=
  C6_npu_instruction_dump.1 [7] (by decide) (by norm_num)

/-- C9: the embedding's `Option`-returning array accesses in
`emitNpuInstructions` all stay in bounds exactly when the instruction
sequence is non-empty; on the empty sequence the wrapped loop bound and
the `back()` access are out of bounds and the function yields `none`. -/
theorem C9_emitNpu_empty_unsafe :
    (∀ ws : List Nat, (emitNpuInstructionsText ws).isSome ↔ ws ≠ []) ∧
    emitNpuInstructionsText ([] : List Nat) = none := by
  have hnone : ∀ ws : List Nat,
      npuLoopPieces ws (npuLoopBound ws.length) = none →
      emitNpuInstructionsText ws = none := by
    intro ws h
    unfold emitNpuInstructionsText
    rw [h]
  have hempty : emitNpuInstructionsText ([] : List Nat) = none :=
    hnone [] (npuLoopPieces_empty (npuLoopBound 0) (by norm_num [npuLoopBound]))
  refine ⟨?_, hempty⟩
  intro ws
  constructor
  · intro h hws
    rw [hws, hempty] at h
    simp at h
  · intro hne
    have h1 : 1 ≤ ws.length := by
      cases ws with
      | nil => exact absurd rfl hne
      | cons a l => simp
    have hblt : npuLoopBound ws.length < ws.length := npuLoopBound_lt _ h1
    unfold emitNpuInstructionsText
    rw [npuLoopPieces_eq ws (npuLoopBound ws.length) (Nat.le_of_lt hblt),
      List.getLast?_eq_getLast ws hne]
    simp

/-- When a microkernel is requested and the vendor toolchain does not
resolve, the per-tile loop fails at the first compute-core tile without
running any further tool. -/
theorem coreLoop_fails_on_first_core (cfg : PipelineCfg)
    (hv : findVitis cfg.env cfg.npuVersion = none)
    (hk : ukernelRequested cfg.ukernel = true) :
    ∀ (tiles : List TileM) (st : CoreSt),
      (∃ t ∈ tiles, t.hasCore = true) →
      coreLoop cfg tiles st = (false, st.trace) := by
  intro tiles
  induction tiles with
  | nil =>
    intro st hex
    obtain ⟨t, ht, _⟩ := hex
    exact absurd ht (List.not_mem_nil t)
  | cons t rest ih =>
    intro st hex
    by_cases hc : t.hasCore = true
    · have hstep : ukernelStep cfg st = .error st.trace := by
        unfold ukernelStep
        rw [hk, hv]
        rfl
      unfold coreLoop
      rw [hc, hstep]
      simp
    · have hcf : t.hasCore = false := by
        cases hcc : t.hasCore
        · rfl
        · exact absurd hcc hc
      unfold coreLoop
      rw [hcf]
      simp only [Bool.false_eq_true]  -- reduce the `if false = false` guard shape
      have hrest : ∃ t' ∈ rest, t'.hasCore = true := by
        obtain ⟨t', ht', hcore'⟩ := hex
        cases List.mem_cons.mp ht' with
        | inl heq => rw [heq] at hcore'; exact absurd hcore' hc
        | inr hmem => exact ⟨t', hmem, hcore'⟩
      simpa using ih st hrest

/-- Under a failing vendor-toolchain resolution and a microkernel
request, `generateCoreElfFilesM` fails and adds nothing to the trace. -/
theorem generateCoreElfFilesM_fails (cfg : PipelineCfg)
    (hv : findVitis cfg.env cfg.npuVersion = none)
    (hk : ukernelRequested cfg.ukernel = true)
    (hex : ∃ t ∈ cfg.tiles, t.hasCore = true) :
    ∀ tr : List Tool, generateCoreElfFilesM cfg tr = (false, tr) := by
  intro tr
  unfold generateCoreElfFilesM
  by_cases hnpu : (cfg.npuVersion == "npu1" || cfg.npuVersion == "npu4") = true
  · rw [if_pos hnpu, coreLoop_fails_on_first_core cfg hv hk cfg.tiles _ hex]
  · rw [if_neg hnpu]

/-- C1 (amended): when the vendor toolchain cannot be resolved and the
vendor backend is selected, the pipeline fails before executing any
external tool.  When instead the open backend is selected but a
microkernel is requested, then — provided some tile carries a compute
core — the pipeline still fails, but only after the open backend's
compiler (`opt`, then `llc`) may have run on the unified object; no
vendor compiler and no other tool is ever executed in such a run. -/
theorem C1_toolchain_gate_amended :
    ∀ cfg : PipelineCfg,
    findVitis cfg.env cfg.npuVersion = none →
    (cfg.useChess = true → aie2xclbinM cfg = (false, [])) ∧
    (cfg.useChess = false → ukernelRequested cfg.ukernel = true →
      (∃ t ∈ cfg.tiles, t.hasCore = true) →
      (aie2xclbinM cfg).1 = false ∧
      ∀ tl ∈ (aie2xclbinM cfg).2, tl = Tool.peanoOpt ∨ tl = Tool.peanoLLC) := by
  intro cfg hv
  constructor
  · intro hc
    have hu : generateUnifiedObjectM cfg = (false, []) := by
      unfold generateUnifiedObjectM
      by_cases hl : cfg.lowerOk = false
      · rw [if_pos hl]
      · rw [if_neg hl, if_pos hc, hv]
    unfold aie2xclbinM
    by_cases hD : npuDumpOkM cfg = false
    · rw [if_pos hD]
    · rw [if_neg hD]
      unfold aie2xclbinTail
      rw [hu]
      rfl
  · intro hc hk hex
    have hcelf := generateCoreElfFilesM_fails cfg hv hk hex
    have hcne : ¬ (cfg.useChess = true) := by
      rw [hc]
      exact Bool.false_ne_true
    have hu : generateUnifiedObjectM cfg = (false, ([] : List Tool)) ∨
        generateUnifiedObjectM cfg = (false, [Tool.peanoOpt]) ∨
        generateUnifiedObjectM cfg = (false, [Tool.peanoOpt, Tool.peanoLLC]) ∨
        generateUnifiedObjectM cfg = (true, [Tool.peanoOpt, Tool.peanoLLC]) := by
      unfold generateUnifiedObjectM
      by_cases hl : cfg.lowerOk = false
      · left
        rw [if_pos hl]
      · rw [if_neg hl, if_neg hcne]
        cases hm : makePeanoOptArgs "input.ll" "input.opt.ll"
            cfg.additionalPeanoOptFlags with
        | none => left; rfl
        | some args =>
          by_cases ho : cfg.toolOk Tool.peanoOpt = false
          · right; left
            rw [if_pos ho]
          · rw [if_neg ho]
            by_cases hll : cfg.toolOk Tool.peanoLLC = false
            · right; right; left
              rw [if_pos hll]
            · right; right; right
              rw [if_neg hll]
    have hmem : ∀ tr : List Tool,
        (∀ tl ∈ tr, tl = Tool.peanoOpt ∨ tl = Tool.peanoLLC) →
        (aie2xclbinTail cfg).1 = false ∧ aie2xclbinTail cfg = (false, tr) →
        (aie2xclbinM cfg).1 = false ∧
          ∀ tl ∈ (aie2xclbinM cfg).2, tl = Tool.peanoOpt ∨ tl = Tool.peanoLLC := by
      intro tr htr ⟨_, htail⟩
      unfold aie2xclbinM
      by_cases hD : npuDumpOkM cfg = false
      · rw [if_pos hD]
        exact ⟨rfl, fun tl htl => absurd htl (List.not_mem_nil tl)⟩
      · rw [if_neg hD, htail]
        exact ⟨rfl, htr⟩
    rcases hu with hu | hu | hu | hu
    · have htail : aie2xclbinTail cfg = (false, []) := by
        unfold aie2xclbinTail
        rw [hu]
        rfl
      exact hmem [] (fun tl htl => absurd htl (List.not_mem_nil tl))
        ⟨by rw [htail], htail⟩
    · have htail : aie2xclbinTail cfg = (false, [Tool.peanoOpt]) := by
        unfold aie2xclbinTail
        rw [hu]
        rfl
      exact hmem [Tool.peanoOpt] (fun tl htl => Or.inl (by simpa using htl))
        ⟨by rw [htail], htail⟩
    · have htail : aie2xclbinTail cfg = (false, [Tool.peanoOpt, Tool.peanoLLC]) := by
        unfold aie2xclbinTail
        rw [hu]
        rfl
      exact hmem [Tool.peanoOpt, Tool.peanoLLC] (fun tl htl => by simpa using htl)
        ⟨by rw [htail], htail⟩
    · have htail : aie2xclbinTail cfg = (false, [Tool.peanoOpt, Tool.peanoLLC]) := by
        unfold aie2xclbinTail
        rw [hu]
        simp only [hcelf]
        rfl
      exact hmem [Tool.peanoOpt, Tool.peanoLLC] (fun tl htl => by simpa using htl)
        ⟨by rw [htail], htail⟩

/-- An environment in which the vendor toolchain does not resolve at all
(no explicit directory, no probe result, nothing on disk). -/
def envNoVitis : VitisEnv :=
  { vitisDirOpt := none, xilinxdLicense := none, lmLicense := none,
    pathExists := fun _ => false }

/-- Open backend, microkernel requested, vendor toolchain unresolvable,
one compute-core tile, every external tool succeeding: the configuration
on which the claim fails. -/
def ukernelPeanoCfg : PipelineCfg :=
  { useChess := false, ukernel := some "mm", env := envNoVitis,
    npuVersion := "npu1", additionalPeanoOptFlags := "",
    toolOk := fun _ => true, mmObjCached := false, intrinsicsCached := false,
    tiles := [{ col := 0, row := 2, hasCore := true }],
    outputNPU := false, npuAttr := none, lowerOk := true,
    emitCtrlPkt := false, ctrlPktOk := true, cdoOk := true, bootgenOk := true,
    lite := true, xclbinutilFound := true, inputXclbin := none,
    uuid := "u", xclBinKernelId := "0x901" }

/-- C1 counterexample: with the vendor toolchain unresolvable and a
microkernel requested under the open backend, the pipeline does fail —
but only after executing the open backend's compiler twice (`opt`, then
`llc`), so "no compiler tool execution occurs in such a run" is false. -/
theorem C1_toolchain_gate_counterexample :
    findVitis ukernelPeanoCfg.env ukernelPeanoCfg.npuVersion = none ∧
    ukernelRequested ukernelPeanoCfg.ukernel = true ∧
    aie2xclbinM ukernelPeanoCfg = (false, [Tool.peanoOpt, Tool.peanoLLC]) ∧
    (aie2xclbinM ukernelPeanoCfg).2 ≠ [] :=
  ⟨rfl, rfl, rfl, by decide⟩

/-- The same failing environment with the vendor backend selected. -/
def chessNoVitisCfg : PipelineCfg :=
  { ukernelPeanoCfg with useChess := true, ukernel := none }

/-- C1 witness: with the vendor backend selected and the toolchain
unresolvable, the pipeline fails with an empty execution trace. -/
theorem C1_toolchain_gate_amended_witness :
    aie2xclbinM chessNoVitisCfg = (false, []) :=
  (C1_toolchain_gate_amended chessNoVitisCfg rfl).1 rfl

end XCLBinGen
